import Mathlib

/-!
Verification of the ebs-volume-manager scanning core.

Shallow embedding of the secure scanner
(infrastructure/lib/lambda/scanner/secure-ebs-scanner.ts) and of the
tenant-isolated persistence layer
(infrastructure/lib/lambda/utils/db-connection.ts).

External effects (database rows, STS responses, per-region EC2 results,
injected persistence failures) are supplied through explicit environment
records; every function of the source becomes a pure Lean function from
its inputs and that environment to its result together with the list of
observable calls it makes.
-/

/-! ### 32-bit arithmetic and SHA-256, the semantics of the Node crypto
calls used by generateExternalId (createHmac sha256, update, digest hex,
substring 0 32). -/

def w32 (n : Nat) : Nat := n % 4294967296

def rotr (n x : Nat) : Nat := w32 ((x >>> n) ||| (x <<< (32 - n)))

def bnot32 (x : Nat) : Nat := x ^^^ 4294967295

def bigSigma0 (x : Nat) : Nat := rotr 2 x ^^^ rotr 13 x ^^^ rotr 22 x

def bigSigma1 (x : Nat) : Nat := rotr 6 x ^^^ rotr 11 x ^^^ rotr 25 x

def smallSigma0 (x : Nat) : Nat := rotr 7 x ^^^ rotr 18 x ^^^ (x >>> 3)

def smallSigma1 (x : Nat) : Nat := rotr 17 x ^^^ rotr 19 x ^^^ (x >>> 10)

def chFn (x y z : Nat) : Nat := (x &&& y) ^^^ (bnot32 x &&& z)

def majFn (x y z : Nat) : Nat := (x &&& y) ^^^ (x &&& z) ^^^ (y &&& z)

def sha256K : List Nat :=
  [1116352408, 1899447441, 3049323471, 3921009573, 961987163, 1508970993,
   2453635748, 2870763221, 3624381080, 310598401, 607225278, 1426881987,
   1925078388, 2162078206, 2614888103, 3248222580, 3835390401, 4022224774,
   264347078, 604807628, 770255983, 1249150122, 1555081692, 1996064986,
   2554220882, 2821834349, 2952996808, 3210313671, 3336571891, 3584528711,
   113926993, 338241895, 666307205, 773529912, 1294757372, 1396182291,
   1695183700, 1986661051, 2177026350, 2456956037, 2730485921, 2820302411,
   3259730800, 3345764771, 3516065817, 3600352804, 4094571909, 275423344,
   430227734, 506948616, 659060556, 883997877, 958139571, 1322822218,
   1537002063, 1747873779, 1955562222, 2024104815, 2227730452, 2361852424,
   2428436474, 2756734187, 3204031479, 3329325298]

structure H8 where
  a : Nat
  b : Nat
  c : Nat
  d : Nat
  e : Nat
  f : Nat
  g : Nat
  h : Nat
deriving Repr, DecidableEq

def sha256Init : H8 :=
  ⟨1779033703, 3144134277, 1013904242, 2773480762,
   1359893119, 2600822924, 528734635, 1541459225⟩

def sha256Round (st : H8) (w k : Nat) : H8 :=
  let t1 := w32 (st.h + bigSigma1 st.e + chFn st.e st.f st.g + k + w)
  let t2 := w32 (bigSigma0 st.a + majFn st.a st.b st.c)
  ⟨w32 (t1 + t2), st.a, st.b, st.c, w32 (st.d + t1), st.e, st.f, st.g⟩

def addH8 (x y : H8) : H8 :=
  ⟨w32 (x.a + y.a), w32 (x.b + y.b), w32 (x.c + y.c), w32 (x.d + y.d),
   w32 (x.e + y.e), w32 (x.f + y.f), w32 (x.g + y.g), w32 (x.h + y.h)⟩

def bytesToWords : List Nat → List Nat
  | b0 :: b1 :: b2 :: b3 :: rest =>
      (b0 * 16777216 + b1 * 65536 + b2 * 256 + b3) :: bytesToWords rest
  | _ => []

def extendSchedule : List Nat → Nat → List Nat
  | ws, 0 => ws
  | ws, Nat.succ n =>
      let len := ws.length
      let t := w32 (smallSigma1 (ws.getD (len - 2) 0) + ws.getD (len - 7) 0 +
                    smallSigma0 (ws.getD (len - 15) 0) + ws.getD (len - 16) 0)
      extendSchedule (ws ++ [t]) n

def compressBlock (st : H8) (blockBytes : List Nat) : H8 :=
  let ws := extendSchedule (bytesToWords blockBytes) 48
  let out := (ws.zip sha256K).foldl (fun s wk => sha256Round s wk.1 wk.2) st
  addH8 out st

def sha256Blocks : H8 → List Nat → Nat → H8
  | st, _, 0 => st
  | st, bytes, Nat.succ n =>
      sha256Blocks (compressBlock st (bytes.take 64)) (bytes.drop 64) n

def lengthBytes64 (n : Nat) : List Nat :=
  [n >>> 56 &&& 255, n >>> 48 &&& 255, n >>> 40 &&& 255, n >>> 32 &&& 255,
   n >>> 24 &&& 255, n >>> 16 &&& 255, n >>> 8 &&& 255, n &&& 255]

def padMessage (msg : List Nat) : List Nat :=
  let z := (119 - msg.length % 64) % 64
  msg ++ [128] ++ List.replicate z 0 ++ lengthBytes64 (msg.length * 8)

def stateWords (st : H8) : List Nat :=
  [st.a, st.b, st.c, st.d, st.e, st.f, st.g, st.h]

def wordsToBytes : List Nat → List Nat
  | [] => []
  | w :: rest =>
      (w >>> 24 &&& 255) :: (w >>> 16 &&& 255) :: (w >>> 8 &&& 255) ::
      (w &&& 255) :: wordsToBytes rest

def sha256Bytes (msg : List Nat) : List Nat :=
  let padded := padMessage msg
  wordsToBytes (stateWords (sha256Blocks sha256Init padded (padded.length / 64)))

/-! ### UTF-8 encoding of strings (Node Buffer semantics of update on a
string argument) and hex rendering (digest hex). -/

def charUtf8 (c : Char) : List Nat :=
  let n := c.toNat
  if n < 128 then [n]
  else if n < 2048 then [192 ||| (n >>> 6), 128 ||| (n &&& 63)]
  else if n < 65536 then
    [224 ||| (n >>> 12), 128 ||| ((n >>> 6) &&& 63), 128 ||| (n &&& 63)]
  else
    [240 ||| (n >>> 18), 128 ||| ((n >>> 12) &&& 63),
     128 ||| ((n >>> 6) &&& 63), 128 ||| (n &&& 63)]

def flattenBytes : List (List Nat) → List Nat
  | [] => []
  | l :: rest => l ++ flattenBytes rest

def strBytes (s : String) : List Nat := flattenBytes (s.data.map charUtf8)

def hexChars : List Char := "0123456789abcdef".data

def hexDigit (n : Nat) : Char := hexChars.getD n '0'

def bytesToHex : List Nat → List Char
  | [] => []
  | b :: rest => hexDigit (b / 16 % 16) :: hexDigit (b % 16) :: bytesToHex rest

/-! ### HMAC-SHA256 (semantics of crypto.createHmac with key shorter than
or longer than the 64-byte block). -/

def hmacSha256 (key msg : List Nat) : List Nat :=
  let k0 := if 64 < key.length then sha256Bytes key else key
  let kp := k0 ++ List.replicate (64 - k0.length) 0
  sha256Bytes ((kp.map fun b => b ^^^ 92) ++
    sha256Bytes ((kp.map fun b => b ^^^ 54) ++ msg))

/-- generateExternalId from secure-ebs-scanner.ts: HMAC-SHA256 keyed by the
EXTERNAL_ID_SECRET environment variable (default-secret when unset) over
tenantId, a colon, accountId; hex digest truncated to its first 32
characters. The secret is passed explicitly as the resolved environment
value. -/
def generateExternalId (secretEnv : Option String) (tenantId accountId : String) : String :=
  let secret := secretEnv.getD "default-secret"
  String.mk ((bytesToHex (hmacSha256 (strBytes secret)
    (strBytes (tenantId ++ ":" ++ accountId)))).take 32)

/-- The keyed hash of the spec, section 4.1: full hex rendering of the
HMAC-SHA256 digest, as a string. -/
def hmacSha256HexDigest (key msg : String) : String :=
  String.mk (bytesToHex (hmacSha256 (strBytes key) (strBytes msg)))

/-! ### Role ARN allow-list (the regex in assumeRoleSecurely:
arn aws iam, two colons, twelve digits, the fixed customer role name). -/

def matchesRoleArnPattern (s : String) : Bool :=
  let pre := "arn:aws:iam::".data
  let suf := ":role/EBSVolumeManager-CustomerRole".data
  let cs := s.data
  (cs.length == pre.length + 12 + suf.length) &&
  (cs.take pre.length == pre) &&
  ((cs.drop pre.length).take 12).all Char.isDigit &&
  (cs.drop (pre.length + 12) == suf)

/-! ### Per-volume-type monthly cost model (the switch statement in
scanVolumesInRegion). The source computes with JavaScript numbers on the
listed decimal rates; the formulas are modelled exactly over the
rationals. -/

def costPerMonth (volumeType : Option String) (gbMonth iops : ℚ) : ℚ :=
  match volumeType with
  | some "gp3" => gbMonth * 0.08 + max 0 (iops - 3000) * 0.005
  | some "gp2" => gbMonth * 0.10
  | some "io1" => gbMonth * 0.125 + iops * 0.065
  | some "io2" => gbMonth * 0.125 + iops * 0.065
  | some "st1" => gbMonth * 0.045
  | some "sc1" => gbMonth * 0.025
  | _ => 0

/-! ### Region scanner: raw provider records, normalization, pagination. -/

structure RawAttachment where
  InstanceId : Option String
  Device : Option String
  AttachTime : Option Nat
deriving Repr, DecidableEq

structure RawVolume where
  VolumeId : Option String
  Size : Option Nat
  Iops : Option Nat
  Throughput : Option Nat
  VolumeType : Option String
  State : Option String
  Encrypted : Option Bool
  KmsKeyId : Option String
  AvailabilityZone : Option String
  CreateTime : Option Nat
  Attachments : List RawAttachment
  Tags : List (String × String)
deriving Repr, DecidableEq

structure VolumeRec where
  tenantId : String
  accountInternalId : String
  volumeId : Option String
  size : Nat
  volumeType : String
  state : String
  encrypted : Bool
  kmsKeyId : Option String
  region : String
  availabilityZone : Option String
  createTime : Option Nat
  iops : Option Nat
  throughput : Option Nat
  instanceId : Option String
  device : Option String
  attachTime : Option Nat
  costPerMonth : ℚ
  tags : List (String × String)
  scannedAt : Nat
deriving Repr, DecidableEq

def mkVolumeRec (tenantId accountInternalId region : String) (now : Nat)
    (v : RawVolume) : VolumeRec :=
  let gbMonth := v.Size.getD 0
  let iops := v.Iops.getD 0
  { tenantId := tenantId,
    accountInternalId := accountInternalId,
    volumeId := v.VolumeId,
    size := v.Size.getD 0,
    volumeType := v.VolumeType.getD "unknown",
    state := v.State.getD "unknown",
    encrypted := v.Encrypted.getD false,
    kmsKeyId := v.KmsKeyId,
    region := region,
    availabilityZone := v.AvailabilityZone,
    createTime := v.CreateTime,
    iops := v.Iops,
    throughput := v.Throughput,
    instanceId := v.Attachments.head?.bind RawAttachment.InstanceId,
    device := v.Attachments.head?.bind RawAttachment.Device,
    attachTime := v.Attachments.head?.bind RawAttachment.AttachTime,
    costPerMonth := costPerMonth v.VolumeType (gbMonth : ℚ) (iops : ℚ),
    tags := v.Tags,
    scannedAt := now }

def scanVolumesInRegion (pages : List (List RawVolume))
    (region tenantId accountInternalId : String) (now : Nat) : List VolumeRec :=
  match pages with
  | [] => []
  | page :: rest =>
      page.map (mkVolumeRec tenantId accountInternalId region now) ++
      scanVolumesInRegion rest region tenantId accountInternalId now

/-! ### Scanner environment and observable calls. -/

structure Credentials where
  accessKeyId : String
  secretAccessKey : String
  sessionToken : String
deriving Repr, DecidableEq

structure AccountRow where
  id : String
  tenant_id : String
  account_id : String
  role_arn : String
  external_id : String
  is_active : Bool
deriving Repr, DecidableEq

structure ScanMetrics where
  volumesFound : Nat
  errors : Option (List String)
deriving Repr, DecidableEq

inductive ScanEvent
  | accountLookup (tenantId accountId : String)
  | statusUpdate (scanId status : String) (errorMsg : Option String)
      (metrics : Option ScanMetrics)
  | assumeRoleCall (roleArn externalId : String)
  | regionScanCall (region : String)
  | volumeStore (region : String) (count : Nat)
deriving Repr, DecidableEq

structure ScanEnv where
  secret : Option String
  accounts : List AccountRow
  accountQueryError : Option String
  stsCredentials : Option Credentials
  scanOutcome : String → Except String (List (List RawVolume))
  storeError : String → Option String
  now : Nat

/-- The rows of aws_accounts visible to the query of
validateAccountOwnership: row-level security restricts to the bound
tenant, the WHERE clause restricts to the claimed account id. -/
def lookupAccounts (accounts : List AccountRow) (tenantId accountId : String) :
    List AccountRow :=
  accounts.filter fun r => r.tenant_id == tenantId && r.account_id == accountId

/-- The queryWithTenant call on aws_accounts, with an injectable
persistence failure. -/
def accountQuery (env : ScanEnv) (tenantId accountId : String) :
    Except String (List AccountRow) :=
  match env.accountQueryError with
  | some m => .error m
  | none => .ok (lookupAccounts env.accounts tenantId accountId)

def validateAccountOwnership (env : ScanEnv)
    (tenantId accountId roleArn externalId : String) : Bool :=
  match accountQuery env tenantId accountId with
  | .error _ => false
  | .ok results =>
    match results with
    | [] => false
    | account :: _ =>
      if account.is_active = false then false
      else if account.role_arn != roleArn then false
      else
        let expectedExternalId := generateExternalId env.secret tenantId accountId
        if account.external_id != externalId || externalId != expectedExternalId then
          false
        else true

def assumeRoleSecurely (env : ScanEnv) (roleArn externalId sessionName : String) :
    List ScanEvent × Except String Credentials :=
  if matchesRoleArnPattern roleArn = false then
    ([], .error "Invalid role ARN format")
  else
    match env.stsCredentials with
    | some creds => ([.assumeRoleCall roleArn externalId], .ok creds)
    | none => ([.assumeRoleCall roleArn externalId], .error "Failed to assume role")

def getAccountInternalId (env : ScanEnv) (tenantId accountId : String) :
    Except String String :=
  match accountQuery env tenantId accountId with
  | .error m => .error m
  | .ok [] => .error ("Account " ++ accountId ++ " not found")
  | .ok (r :: _) => .ok r.id

/-- The per-region for loop of processScanRequest: a thrown error from the
region list call or from the store transaction is caught, rendered as
region colon message, and the loop continues; the volume count is added
before the store is attempted. -/
def regionLoop (env : ScanEnv) (tenantId accountInternalId : String) :
    List String → List ScanEvent × Nat × List String
  | [] => ([], 0, [])
  | region :: rest =>
    let step : List ScanEvent × Nat × List String :=
      match env.scanOutcome region with
      | .error m => ([.regionScanCall region], 0, [region ++ ": " ++ m])
      | .ok pages =>
        let volumes := scanVolumesInRegion pages region tenantId accountInternalId env.now
        match env.storeError region with
        | some m =>
            ([.regionScanCall region, .volumeStore region volumes.length],
             volumes.length, [region ++ ": " ++ m])
        | none =>
            ([.regionScanCall region, .volumeStore region volumes.length],
             volumes.length, [])
    let restOut := regionLoop env tenantId accountInternalId rest
    (step.1 ++ restOut.1, step.2.1 + restOut.2.1, step.2.2 ++ restOut.2.2)

structure ScanRequest where
  scanId : String
  tenantId : String
  accountId : String
  roleArn : String
  externalId : String
  regions : List String

def processScanRequest (env : ScanEnv) (req : ScanRequest) :
    List ScanEvent × Except String Unit :=
  let evs0 := [ScanEvent.accountLookup req.tenantId req.accountId]
  if validateAccountOwnership env req.tenantId req.accountId req.roleArn
      req.externalId = false then
    (evs0, .error "Invalid account credentials or ownership")
  else
    let evs2 := evs0 ++ [ScanEvent.statusUpdate req.scanId "in-progress" none none,
                         ScanEvent.accountLookup req.tenantId req.accountId]
    match getAccountInternalId env req.tenantId req.accountId with
    | .error m => (evs2, .error m)
    | .ok accountInternalId =>
      let assumed := assumeRoleSecurely env req.roleArn req.externalId req.scanId
      match assumed.2 with
      | .error m => (evs2 ++ assumed.1, .error m)
      | .ok _creds =>
        let loop := regionLoop env req.tenantId accountInternalId req.regions
        let metrics : ScanMetrics :=
          ⟨loop.2.1, if loop.2.2.isEmpty then none else some loop.2.2⟩
        (evs2 ++ assumed.1 ++ loop.1 ++
          [ScanEvent.statusUpdate req.scanId "completed" none (some metrics)],
         .ok ())

def isAssumeRoleEvent : ScanEvent → Bool
  | .assumeRoleCall _ _ => true
  | _ => false

def isMutationEvent : ScanEvent → Bool
  | .statusUpdate _ _ _ _ => true
  | .volumeStore _ _ => true
  | _ => false

/-! ### Tenant-isolated persistence layer, db-connection.ts.

A borrowed pooled connection is modelled by the ordered list of events it
observes: acquisition, each statement attempt (with whether the statement
succeeded or threw), and release back to the pool. The outcome records
say which statements of a call succeed; the functions below translate the
try, catch and finally control flow of the source for every combination
of outcomes. A statement attempt that throws aborts the block it is in
exactly as in JavaScript; a throw from the finally block itself prevents
the release call that follows it. -/

inductive SqlStmt
  | setTenant (tenantId : String)
  | resetTenant
  | beginTx
  | commitTx
  | rollbackTx
  | exec (query : String)
deriving Repr, DecidableEq

inductive ConnEvent
  | acquire
  | stmt (s : SqlStmt) (ok : Bool)
  | release
deriving Repr, DecidableEq

structure QueryCallOutcome where
  setOk : Bool
  execOk : Bool
  resetOk : Bool
deriving Repr, DecidableEq

/-- The finally block of both primitives: the reset statement, then, only
when the reset statement did not itself throw, the release call. -/
def finallySeq (resetOk : Bool) : List ConnEvent :=
  ConnEvent.stmt SqlStmt.resetTenant resetOk ::
    (if resetOk then [ConnEvent.release] else [])

def queryWithTenant (tenantId query : String) (o : QueryCallOutcome) :
    List ConnEvent × Except String Unit :=
  if o.setOk = false then
    ([ConnEvent.acquire, .stmt (.setTenant tenantId) false] ++ finallySeq o.resetOk,
     .error (if o.resetOk then "set_config failed" else "reset failed"))
  else if o.execOk = false then
    ([ConnEvent.acquire, .stmt (.setTenant tenantId) true,
      .stmt (.exec query) false] ++ finallySeq o.resetOk,
     .error (if o.resetOk then "query failed" else "reset failed"))
  else
    ([ConnEvent.acquire, .stmt (.setTenant tenantId) true,
      .stmt (.exec query) true] ++ finallySeq o.resetOk,
     if o.resetOk then .ok () else .error "reset failed")

structure TxCallOutcome where
  beginOk : Bool
  setOk : Bool
  bodyStmts : List (String × Bool)
  bodyOk : Bool
  commitOk : Bool
  rollbackOk : Bool
  resetOk : Bool

/-- Statements the transaction body executed on the borrowed client. -/
def bodyEvents (stmts : List (String × Bool)) : List ConnEvent :=
  stmts.map fun qb => ConnEvent.stmt (SqlStmt.exec qb.1) qb.2

def transactionWithTenant (tenantId : String) (o : TxCallOutcome) :
    List ConnEvent × Except String Unit :=
  if o.beginOk = false then
    ([ConnEvent.acquire, .stmt .beginTx false, .stmt .rollbackTx o.rollbackOk] ++
       finallySeq o.resetOk,
     .error (if o.resetOk = false then "reset failed"
             else if o.rollbackOk = false then "rollback failed" else "begin failed"))
  else if o.setOk = false then
    ([ConnEvent.acquire, .stmt .beginTx true, .stmt (.setTenant tenantId) false,
      .stmt .rollbackTx o.rollbackOk] ++ finallySeq o.resetOk,
     .error (if o.resetOk = false then "reset failed"
             else if o.rollbackOk = false then "rollback failed"
             else "set_config failed"))
  else if o.bodyOk = false then
    ([ConnEvent.acquire, .stmt .beginTx true, .stmt (.setTenant tenantId) true] ++
       bodyEvents o.bodyStmts ++
       [ConnEvent.stmt .rollbackTx o.rollbackOk] ++ finallySeq o.resetOk,
     .error (if o.resetOk = false then "reset failed"
             else if o.rollbackOk = false then "rollback failed" else "body failed"))
  else if o.commitOk = false then
    ([ConnEvent.acquire, .stmt .beginTx true, .stmt (.setTenant tenantId) true] ++
       bodyEvents o.bodyStmts ++
       [ConnEvent.stmt .commitTx false, .stmt .rollbackTx o.rollbackOk] ++
       finallySeq o.resetOk,
     .error (if o.resetOk = false then "reset failed"
             else if o.rollbackOk = false then "rollback failed" else "commit failed"))
  else
    ([ConnEvent.acquire, .stmt .beginTx true, .stmt (.setTenant tenantId) true] ++
       bodyEvents o.bodyStmts ++ [ConnEvent.stmt .commitTx true] ++
       finallySeq o.resetOk,
     if o.resetOk then .ok () else .error "reset failed")

/-- Session-local tenant context of one connection: a successful
set_config to the tenant binds it, a successful set_config back to the
empty string clears it; every other event leaves it unchanged. -/
def applyConnEvent (ctx : String) (e : ConnEvent) : String :=
  match e with
  | .stmt (.setTenant t) true => t
  | .stmt .resetTenant true => ""
  | _ => ctx

def ctxAfter (c0 : String) (evs : List ConnEvent) : String :=
  evs.foldl applyConnEvent c0

def isExecStmt : ConnEvent → Bool
  | .stmt (.exec _) _ => true
  | _ => false

def isSetTenantEvent : ConnEvent → Bool
  | .stmt (.setTenant _) _ => true
  | _ => false

/-! ### Volume upsert (the INSERT ON CONFLICT statement of storeVolumes
together with the ebs_volumes table shape of the initial migration). -/

structure VolumeRow where
  id : String
  tenant_id : String
  aws_account_id : String
  volume_id : String
  size_gb : Nat
  volume_type : String
  state : String
  encrypted : Bool
  kms_key_id : Option String
  region : String
  availability_zone : Option String
  created_at : Option Nat
  iops : Option Nat
  throughput : Option Nat
  instance_id : Option String
  device : Option String
  attached_at : Option Nat
  cost_per_month : ℚ
  tags : String
  last_scanned_at : Nat
  updated_at : Nat
deriving Repr, DecidableEq

/-- The nineteen bound parameters of the INSERT in storeVolumes. -/
structure VolumeInsert where
  tenant_id : String
  aws_account_id : String
  volume_id : String
  size_gb : Nat
  volume_type : String
  state : String
  encrypted : Bool
  kms_key_id : Option String
  region : String
  availability_zone : Option String
  created_at : Option Nat
  iops : Option Nat
  throughput : Option Nat
  instance_id : Option String
  device : Option String
  attached_at : Option Nat
  cost_per_month : ℚ
  tags : String
  last_scanned_at : Nat
deriving Repr, DecidableEq

/-- The unique constraint of ebs_volumes: tenant_id with volume_id. -/
def volumeKeyMatch (r : VolumeRow) (p : VolumeInsert) : Bool :=
  r.tenant_id == p.tenant_id && r.volume_id == p.volume_id

/-- The DO UPDATE SET clause: state, instance_id, device, attached_at,
cost_per_month, tags, last_scanned_at from the excluded row, updated_at
from the clock; every other column keeps its stored value. -/
def applyVolumeUpdate (p : VolumeInsert) (now : Nat) (r : VolumeRow) : VolumeRow :=
  { r with
    state := p.state,
    instance_id := p.instance_id,
    device := p.device,
    attached_at := p.attached_at,
    cost_per_month := p.cost_per_month,
    tags := p.tags,
    last_scanned_at := p.last_scanned_at,
    updated_at := now }

/-- A freshly inserted row: generated id, the nineteen parameters, and the
updated_at column default of the current timestamp. -/
def newVolumeRow (p : VolumeInsert) (newId : String) (now : Nat) : VolumeRow :=
  ⟨newId, p.tenant_id, p.aws_account_id, p.volume_id, p.size_gb, p.volume_type,
   p.state, p.encrypted, p.kms_key_id, p.region, p.availability_zone,
   p.created_at, p.iops, p.throughput, p.instance_id, p.device, p.attached_at,
   p.cost_per_month, p.tags, p.last_scanned_at, now⟩

def upsertVolume (table : List VolumeRow) (newId : String) (now : Nat)
    (p : VolumeInsert) : List VolumeRow :=
  if table.any (volumeKeyMatch · p) then
    table.map fun r => if volumeKeyMatch r p then applyVolumeUpdate p now r else r
  else table ++ [newVolumeRow p newId now]

/-! ### Concrete inputs used to instantiate the theorems. -/

/-- An environment with no accounts, no credentials and no failures, used
to instantiate universally quantified theorems at concrete inputs. -/
def emptyScanEnv : ScanEnv :=
  { secret := none, accounts := [], accountQueryError := none,
    stsCredentials := none, scanOutcome := fun _ => Except.ok [],
    storeError := fun _ => none, now := 0 }

def c3Request : ScanRequest := ⟨"scan-1", "t1", "a1", "arn", "x", ["r1"]⟩

def dbErrorScanEnv : ScanEnv :=
  { emptyScanEnv with accountQueryError := some "connection refused" }

def c4Arn : String := "arn:aws:iam::123456789012:role/EBSVolumeManager-CustomerRole"

def c4ExternalId : String := generateExternalId none "t1" "a1"

def c4Account : AccountRow := ⟨"acct-uuid-1", "t1", "a1", c4Arn, c4ExternalId, true⟩

def c4Volume : RawVolume :=
  ⟨some "vol-1", some 100, some 3000, none, some "gp3", some "in-use", some true,
   none, some "r1a", none, [], []⟩

def c4Env : ScanEnv :=
  { secret := none, accounts := [c4Account], accountQueryError := none,
    stsCredentials := some ⟨"AK", "SK", "ST"⟩,
    scanOutcome := fun r =>
      if r = "r1" then .ok [[c4Volume, c4Volume, c4Volume]]
      else .error "AccessDenied",
    storeError := fun _ => none, now := 0 }

def c4Request : ScanRequest := ⟨"scan-2", "t1", "a1", c4Arn, c4ExternalId, ["r1", "r2"]⟩

def c5Insert : VolumeInsert :=
  ⟨"t1", "acct-uuid-1", "vol-9", 100, "gp3", "available", false, none, "r1",
   some "r1a", some 1000, some 3000, some 125, none, none, none, 8, "[]", 2000⟩

def c5Row : VolumeRow := newVolumeRow c5Insert "row-1" 2000

def qAllOk : QueryCallOutcome := ⟨true, true, true⟩

def txBodyFail : TxCallOutcome :=
  ⟨true, true, [("UPDATE scan_history", true)], false, true, true, true⟩

def txBeginFail : TxCallOutcome := ⟨false, true, [], true, true, true, true⟩

lemma length_bytesToHex (l : List Nat) : (bytesToHex l).length = 2 * l.length := by
  induction l with
  | nil => rfl
  | cons b rest ih => simp [bytesToHex, ih]; ring

lemma length_wordsToBytes (l : List Nat) : (wordsToBytes l).length = 4 * l.length := by
  induction l with
  | nil => rfl
  | cons w rest ih => simp [wordsToBytes, ih]; ring

lemma length_sha256Bytes (msg : List Nat) : (sha256Bytes msg).length = 32 := by
  simp [sha256Bytes, length_wordsToBytes, stateWords]

lemma length_hmacSha256 (key msg : List Nat) : (hmacSha256 key msg).length = 32 := by
  simp [hmacSha256, length_sha256Bytes]

lemma hexDigit_mem (n : Nat) : hexDigit n ∈ hexChars := by
  by_cases h : n < hexChars.length
  · rw [hexDigit, List.getD_eq_getElem hexChars '0' h]
    exact List.getElem_mem h
  · rw [hexDigit, List.getD_eq_default hexChars '0' (not_lt.mp h)]
    decide

lemma bytesToHex_all_hex (l : List Nat) :
    (bytesToHex l).all (fun c => hexChars.contains c) = true := by
  induction l with
  | nil => rfl
  | cons b rest ih =>
      simp only [bytesToHex]
      simp at ih ⊢
      exact ⟨hexDigit_mem _, hexDigit_mem _, ih⟩

lemma all_take {α : Type} (p : α → Bool) (l : List α) (n : Nat)
    (h : l.all p = true) : (l.take n).all p = true := by
  simp [List.all_eq_true] at h ⊢
  exact fun a ha => h a (List.take_subset n l ha)

/-- Claim C9: for every pair of tenant and account ids and fixed secret,
generateExternalId is deterministic and reproducible across calls, and it
equals the HMAC-SHA256 keyed hash of the concatenated ids truncated to a
32-character hex string (every character a lowercase hex digit). -/
theorem generateExternalIdDeterministicHmac (secretEnv : Option String)
    (tenantId accountId : String) :
    generateExternalId secretEnv tenantId accountId =
      generateExternalId secretEnv tenantId accountId
  ∧ generateExternalId secretEnv tenantId accountId =
      String.mk ((hmacSha256HexDigest (secretEnv.getD "default-secret")
        (tenantId ++ ":" ++ accountId)).data.take 32)
  ∧ (generateExternalId secretEnv tenantId accountId).length = 32
  ∧ ((generateExternalId secretEnv tenantId accountId).data.all
       (fun c => hexChars.contains c)) = true := by
  refine ⟨rfl, rfl, ?_, ?_⟩
  · simp [generateExternalId, String.length, List.length_take, length_bytesToHex,
      length_hmacSha256]
  · exact all_take _ _ _ (bytesToHex_all_hex _)

/-- Claim C6: the monthly cost of a scanned volume is computed by volume
type: gp3 is size times base rate plus the iops overage above the free
threshold of 3000 times the per-iops rate (at exactly 3000 the overage
term contributes nothing), gp2 is a flat rate on size, io1 and io2 add a
per-iops term on all iops, st1 and sc1 are lower flat rates on size, and
any unrecognized volume type yields cost 0 without error. -/
theorem costPerMonthFormula (s i : ℚ) (vt : String) :
    costPerMonth (some "gp3") s i = s * 0.08 + max 0 (i - 3000) * 0.005
  ∧ costPerMonth (some "gp3") s 3000 = s * 0.08
  ∧ costPerMonth (some "gp2") s i = s * 0.10
  ∧ costPerMonth (some "io1") s i = s * 0.125 + i * 0.065
  ∧ costPerMonth (some "io2") s i = s * 0.125 + i * 0.065
  ∧ costPerMonth (some "st1") s i = s * 0.045
  ∧ costPerMonth (some "sc1") s i = s * 0.025
  ∧ (vt ∉ (["gp3", "gp2", "io1", "io2", "st1", "sc1"] : List String) →
       costPerMonth (some vt) s i = 0)
  ∧ costPerMonth none s i = 0 := by
  refine ⟨rfl, ?_, rfl, rfl, rfl, rfl, rfl, ?_, rfl⟩
  · show s * 0.08 + max 0 ((3000 : ℚ) - 3000) * 0.005 = s * 0.08
    norm_num
  · intro h
    simp only [List.mem_cons, List.not_mem_nil, or_false, not_or] at h
    obtain ⟨h1, h2, h3, h4, h5, h6⟩ := h
    simp only [costPerMonth]
    split
    · rename_i heq; injection heq with hv; exact absurd hv h1
    · rename_i heq; injection heq with hv; exact absurd hv h2
    · rename_i heq; injection heq with hv; exact absurd hv h3
    · rename_i heq; injection heq with hv; exact absurd hv h4
    · rename_i heq; injection heq with hv; exact absurd hv h5
    · rename_i heq; injection heq with hv; exact absurd hv h6
    · rfl

lemma split_three {α : Type} (cs pre suf : List α) (n : Nat)
    (htake : cs.take pre.length = pre)
    (hdrop : cs.drop (pre.length + n) = suf) :
    cs = pre ++ ((cs.drop pre.length).take n) ++ suf := by
  conv_lhs => rw [← List.take_append_drop pre.length cs]
  rw [htake, List.append_assoc]
  congr 1
  conv_lhs => rw [← List.take_append_drop n (cs.drop pre.length)]
  congr 1
  rw [List.drop_drop]
  exact hdrop

lemma matchesRoleArnPattern_iff (s : String) :
    matchesRoleArnPattern s = true ↔
      ∃ ds : List Char,
        s.data = "arn:aws:iam::".data ++ ds ++ ":role/EBSVolumeManager-CustomerRole".data
        ∧ ds.length = 12 ∧ ds.all Char.isDigit = true := by
  unfold matchesRoleArnPattern
  simp only [Bool.and_eq_true, beq_iff_eq]
  constructor
  · intro h
    obtain ⟨⟨⟨hlen, htake⟩, hdig⟩, hdrop⟩ := h
    refine ⟨(s.data.drop ("arn:aws:iam::".data).length).take 12,
      split_three s.data _ _ 12 htake hdrop, ?_, hdig⟩
    have hlen2 : s.data.length = 60 := by simpa using hlen
    rw [List.length_take, List.length_drop, hlen2]
    decide
  · rintro ⟨ds, hs, hlen, hdig⟩
    have h25 : ("arn:aws:iam::".data ++ ds).length = ("arn:aws:iam::".data).length + 12 := by
      simp [hlen]
    refine ⟨⟨⟨?_, ?_⟩, ?_⟩, ?_⟩
    · rw [hs]; simp [hlen]
    · rw [hs, List.append_assoc]
      exact List.take_left _ _
    · rw [hs, List.append_assoc]
      have hdl : ("arn:aws:iam::".data ++ (ds ++ ":role/EBSVolumeManager-CustomerRole".data)).drop
          ("arn:aws:iam::".data).length = ds ++ ":role/EBSVolumeManager-CustomerRole".data :=
        List.drop_left _ _
      rw [hdl, List.take_append_of_le_length (le_of_eq hlen.symm), ← hlen, List.take_length]
      exact hdig
    · rw [hs]
      have hd := List.drop_left ("arn:aws:iam::".data ++ ds)
        ":role/EBSVolumeManager-CustomerRole".data
      rw [h25] at hd
      exact hd

/-- Claim C7: assumeRoleSecurely rejects with a format error, before any
credential request to the provider, every role ARN that does not match
the allow-listed pattern of arn aws iam, twelve digits, and the fixed
customer role name; a provider request is issued exactly for conforming
ARNs. -/
theorem roleArnAllowList (env : ScanEnv) (arn eid sn : String) :
    (((assumeRoleSecurely env arn eid sn).1 ≠ []) ↔ matchesRoleArnPattern arn = true)
  ∧ (matchesRoleArnPattern arn = false →
       assumeRoleSecurely env arn eid sn = ([], .error "Invalid role ARN format"))
  ∧ (matchesRoleArnPattern arn = true ↔
      ∃ ds : List Char,
        arn.data = "arn:aws:iam::".data ++ ds ++ ":role/EBSVolumeManager-CustomerRole".data
        ∧ ds.length = 12 ∧ ds.all Char.isDigit = true) := by
  refine ⟨?_, ?_, matchesRoleArnPattern_iff arn⟩
  · unfold assumeRoleSecurely
    rcases h : matchesRoleArnPattern arn with _ | _
    · simp [h]
    · simp [h]
      rcases env.stsCredentials with _ | c <;> simp
  · intro h
    unfold assumeRoleSecurely
    simp [h]

/-- Witness for claim C6: a concrete unrecognized volume type costs 0 and
a gp3 volume of 100 GB at 3500 iops costs 10.5. -/
theorem costPerMonthFormula_witness :
    costPerMonth (some "standard") 100 3500 = 0
  ∧ costPerMonth (some "gp3") 100 3500 = 10.5 :=
  ⟨(costPerMonthFormula 100 3500 "standard").2.2.2.2.2.2.2.1 (by decide),
   by
    show (100 : ℚ) * 0.08 + max 0 ((3500 : ℚ) - 3000) * 0.005 = 10.5
    rw [show ((3500 : ℚ) - 3000) = 500 by norm_num,
      max_eq_right (by norm_num : (0 : ℚ) ≤ 500)]
    norm_num⟩

/-- Witness for claim C7: a concrete malformed ARN is rejected with the
format error and no provider call. -/
theorem roleArnAllowList_witness :
    assumeRoleSecurely emptyScanEnv "arn:aws:iam::evil" "x" "s" =
      ([], .error "Invalid role ARN format") :=
  (roleArnAllowList emptyScanEnv "arn:aws:iam::evil" "x" "s").2.1 (by decide)

/-- Claim C1: the credential validator returns true exactly when the
tenant-isolated account query succeeds, its first row exists, that row is
active, its stored role ARN is string-equal to the claimed one, and the
external id recomputed from the tenant and account ids equals both the
stored external id and the claimed external id; a missing row fails
closed to false. -/
theorem validateAccountOwnership_iff (env : ScanEnv)
    (tenantId accountId roleArn externalId : String) :
    validateAccountOwnership env tenantId accountId roleArn externalId = true ↔
      ∃ rows account,
        accountQuery env tenantId accountId = .ok rows
        ∧ rows.head? = some account
        ∧ account.is_active = true
        ∧ account.role_arn = roleArn
        ∧ generateExternalId env.secret tenantId accountId = account.external_id
        ∧ generateExternalId env.secret tenantId accountId = externalId := by
  unfold validateAccountOwnership
  rcases hq : accountQuery env tenantId accountId with m | rows
  · simp
  · rcases rows with _ | ⟨account, rest⟩
    · simp
    · constructor
      · intro h
        dsimp only at h
        split_ifs at h with h1 h2 h3
        simp only [Bool.not_eq_false] at h1
        simp only [bne_iff_ne, ne_eq, not_not] at h2
        simp only [Bool.or_eq_true, not_or, bne_iff_ne, ne_eq, not_not] at h3
        obtain ⟨hstored, hexp⟩ := h3
        refine ⟨account :: rest, account, rfl, rfl, h1, h2, ?_, hexp.symm⟩
        rw [hstored]
        exact hexp.symm
      · rintro ⟨rows2, acct, hok, hhead, hact, harn, hstored, hclaimed⟩
        injection hok with hrows
        subst hrows
        simp only [List.head?, Option.some.injEq] at hhead
        subst hhead
        dsimp only
        split_ifs with h1 h2 h3
        · rw [hact] at h1; exact absurd h1 (by simp)
        · rw [harn] at h2; simp at h2
        · exfalso
          simp only [Bool.or_eq_true, bne_iff_ne, ne_eq] at h3
          rcases h3 with h3 | h3
          · exact h3 (by rw [← hstored, hclaimed])
          · exact h3 (by rw [← hclaimed, hstored])
        · rfl

lemma processScanRequest_of_invalid (env : ScanEnv) (req : ScanRequest)
    (h : validateAccountOwnership env req.tenantId req.accountId req.roleArn
      req.externalId = false) :
    processScanRequest env req =
      ([ScanEvent.accountLookup req.tenantId req.accountId],
       .error "Invalid account credentials or ownership") := by
  unfold processScanRequest
  simp [h]

/-- Claim C3: when validation returns false the scan aborts at once: the
whole trace of processScanRequest is the single read-only account lookup
and the invalid-credentials error, so no role-assumption call and no
data-mutating call (status write or volume write) occurs. -/
theorem invalidCredentialsAbortsScan (env : ScanEnv) (req : ScanRequest)
    (h : validateAccountOwnership env req.tenantId req.accountId req.roleArn
      req.externalId = false) :
    processScanRequest env req =
      ([ScanEvent.accountLookup req.tenantId req.accountId],
       .error "Invalid account credentials or ownership")
  ∧ ((processScanRequest env req).1.all
       fun e => !(isAssumeRoleEvent e || isMutationEvent e)) = true := by
  have hp := processScanRequest_of_invalid env req h
  refine ⟨hp, ?_⟩
  rw [hp]
  rfl

/-- Witness for claim C3: with an empty account table, validation fails and
the scan trace is the single read-only lookup, with the invalid-credentials
error and no role assumption, no status write, no volume write. -/
theorem invalidCredentialsAbortsScan_witness :
    processScanRequest emptyScanEnv c3Request =
      ([ScanEvent.accountLookup "t1" "a1"],
       .error "Invalid account credentials or ownership") :=
  (invalidCredentialsAbortsScan emptyScanEnv c3Request rfl).1

/-- Claim C10: the validator is total over every persistence outcome; a
thrown persistence error is mapped to the boolean false by the catch
block, and the scan therefore aborts with the fixed invalid-credentials
error rather than propagating the persistence error. -/
theorem validatorFailsClosedOnDbError (env : ScanEnv) (req : ScanRequest)
    (m : String) (h : env.accountQueryError = some m) :
    validateAccountOwnership env req.tenantId req.accountId req.roleArn
      req.externalId = false
  ∧ (processScanRequest env req).2 =
      .error "Invalid account credentials or ownership" := by
  have hv : validateAccountOwnership env req.tenantId req.accountId req.roleArn
      req.externalId = false := by
    unfold validateAccountOwnership accountQuery
    rw [h]
  refine ⟨hv, ?_⟩
  rw [processScanRequest_of_invalid env req hv]

/-- Witness for claim C10: a concrete persistence failure during validation
maps to a false validation result and the fixed invalid-credentials error,
not to the propagated connection error. -/
theorem validatorFailsClosedOnDbError_witness :
    validateAccountOwnership dbErrorScanEnv "t1" "a1" "arn" "x" = false
  ∧ (processScanRequest dbErrorScanEnv c3Request).2 =
      .error "Invalid account credentials or ownership" :=
  validatorFailsClosedOnDbError dbErrorScanEnv c3Request "connection refused" rfl

lemma length_scanVolumesInRegion (pages : List (List RawVolume))
    (region t a : String) (now : Nat) :
    (scanVolumesInRegion pages region t a now).length = (pages.map List.length).sum := by
  induction pages with
  | nil => rfl
  | cons p rest ih => simp [scanVolumesInRegion, ih]

lemma regionLoop_cons (env : ScanEnv) (t a r0 : String) (rest : List String) :
    regionLoop env t a (r0 :: rest) =
      ((match env.scanOutcome r0 with
        | .error _ => [ScanEvent.regionScanCall r0]
        | .ok pages => [ScanEvent.regionScanCall r0,
            .volumeStore r0 (scanVolumesInRegion pages r0 t a env.now).length]) ++
        (regionLoop env t a rest).1,
       (match env.scanOutcome r0 with
        | .error _ => 0
        | .ok pages => (scanVolumesInRegion pages r0 t a env.now).length) +
        (regionLoop env t a rest).2.1,
       (match env.scanOutcome r0 with
        | .error m => [r0 ++ ": " ++ m]
        | .ok _ => match env.storeError r0 with
          | some m => [r0 ++ ": " ++ m]
          | none => []) ++ (regionLoop env t a rest).2.2) := by
  rcases hs : env.scanOutcome r0 with m | pages
  · simp [regionLoop, hs]
  · rcases hst : env.storeError r0 with _ | m <;> simp [regionLoop, hs, hst]

lemma regionLoop_calls (env : ScanEnv) (t a : String) (regions : List String) :
    ∀ r ∈ regions, ScanEvent.regionScanCall r ∈ (regionLoop env t a regions).1 := by
  induction regions with
  | nil => intro r hr; cases hr
  | cons r0 rest ih =>
      intro r hr
      rw [regionLoop_cons]
      rcases List.mem_cons.mp hr with h | h
      · subst h
        rcases hs : env.scanOutcome r with m | pages <;> simp [hs]
      · exact List.mem_append_right _ (ih r h)

lemma regionLoop_total (env : ScanEnv) (t a : String) (regions : List String) :
    (regionLoop env t a regions).2.1 =
      (regions.map fun r => match env.scanOutcome r with
        | .ok pages => (pages.map List.length).sum
        | .error _ => 0).sum := by
  induction regions with
  | nil => rfl
  | cons r0 rest ih =>
      rw [regionLoop_cons]
      rcases hs : env.scanOutcome r0 with m | pages <;>
        simp [hs, ih, length_scanVolumesInRegion]

lemma regionLoop_errors (env : ScanEnv) (t a : String) (regions : List String) :
    (regionLoop env t a regions).2.2 =
      regions.filterMap fun r => match env.scanOutcome r with
        | .error m => some (r ++ ": " ++ m)
        | .ok _ => (env.storeError r).map fun m => r ++ ": " ++ m := by
  induction regions with
  | nil => rfl
  | cons r0 rest ih =>
      rw [regionLoop_cons]
      rcases hs : env.scanOutcome r0 with m | pages
      · simp [hs, List.filterMap_cons, ih]
      · rcases hst : env.storeError r0 with _ | m <;>
          simp [hs, hst, List.filterMap_cons, ih]

lemma accountQuery_of_validate (env : ScanEnv) (t a arn eid : String)
    (h : validateAccountOwnership env t a arn eid = true) :
    ∃ account rest, accountQuery env t a = .ok (account :: rest) := by
  unfold validateAccountOwnership at h
  rcases hq : accountQuery env t a with m | rows
  · rw [hq] at h; simp at h
  · rcases rows with _ | ⟨account, rest⟩
    · rw [hq] at h; simp at h
    · exact ⟨account, rest, rfl⟩

lemma processScanRequest_of_valid (env : ScanEnv) (req : ScanRequest) (c : Credentials)
    (hv : validateAccountOwnership env req.tenantId req.accountId req.roleArn
      req.externalId = true)
    (harn : matchesRoleArnPattern req.roleArn = true)
    (hsts : env.stsCredentials = some c) :
    ∃ aid, getAccountInternalId env req.tenantId req.accountId = .ok aid ∧
      processScanRequest env req =
        ([ScanEvent.accountLookup req.tenantId req.accountId,
          ScanEvent.statusUpdate req.scanId "in-progress" none none,
          ScanEvent.accountLookup req.tenantId req.accountId,
          ScanEvent.assumeRoleCall req.roleArn req.externalId] ++
          (regionLoop env req.tenantId aid req.regions).1 ++
          [ScanEvent.statusUpdate req.scanId "completed" none (some
            ⟨(regionLoop env req.tenantId aid req.regions).2.1,
             if (regionLoop env req.tenantId aid req.regions).2.2.isEmpty then none
             else some (regionLoop env req.tenantId aid req.regions).2.2⟩)],
         .ok ()) := by
  obtain ⟨account, rest, hq⟩ :=
    accountQuery_of_validate env req.tenantId req.accountId req.roleArn req.externalId hv
  have hg : getAccountInternalId env req.tenantId req.accountId = .ok account.id := by
    unfold getAccountInternalId
    rw [hq]
  have hassume : assumeRoleSecurely env req.roleArn req.externalId req.scanId =
      ([ScanEvent.assumeRoleCall req.roleArn req.externalId], .ok c) := by
    unfold assumeRoleSecurely
    simp [harn, hsts]
  refine ⟨account.id, hg, ?_⟩
  unfold processScanRequest
  simp [hv, hg, hassume]

/-- Claim C4: when validation and role assumption succeed, every region in
the request is attempted, a region failure is recorded as the string of
region, colon, space, message, and the scan record ends with a completed
status update whose volumesFound is the total over the regions whose
listing call succeeded and whose errors list exactly the failed regions;
per-region failures never produce a failed status. -/
theorem perRegionFailureIsolation (env : ScanEnv) (req : ScanRequest) (c : Credentials)
    (hv : validateAccountOwnership env req.tenantId req.accountId req.roleArn
      req.externalId = true)
    (harn : matchesRoleArnPattern req.roleArn = true)
    (hsts : env.stsCredentials = some c) :
    (processScanRequest env req).2 = .ok ()
  ∧ (∀ r ∈ req.regions, ScanEvent.regionScanCall r ∈ (processScanRequest env req).1)
  ∧ ∃ pre, (processScanRequest env req).1 =
      pre ++ [ScanEvent.statusUpdate req.scanId "completed" none (some
        ⟨(req.regions.map fun r => match env.scanOutcome r with
            | .ok pages => (pages.map List.length).sum
            | .error _ => 0).sum,
         if (req.regions.filterMap fun r => match env.scanOutcome r with
              | .error m => some (r ++ ": " ++ m)
              | .ok _ => (env.storeError r).map fun m => r ++ ": " ++ m).isEmpty
         then none
         else some (req.regions.filterMap fun r => match env.scanOutcome r with
              | .error m => some (r ++ ": " ++ m)
              | .ok _ => (env.storeError r).map fun m => r ++ ": " ++ m)⟩)] := by
  obtain ⟨aid, hg, hp⟩ := processScanRequest_of_valid env req c hv harn hsts
  refine ⟨by rw [hp], ?_, ?_⟩
  · intro r hr
    rw [hp]
    have hm := regionLoop_calls env req.tenantId aid req.regions r hr
    simp only [List.mem_append]
    exact Or.inl (Or.inr hm)
  · refine ⟨[ScanEvent.accountLookup req.tenantId req.accountId,
      ScanEvent.statusUpdate req.scanId "in-progress" none none,
      ScanEvent.accountLookup req.tenantId req.accountId,
      ScanEvent.assumeRoleCall req.roleArn req.externalId] ++
      (regionLoop env req.tenantId aid req.regions).1, ?_⟩
    rw [hp, regionLoop_total, regionLoop_errors]

lemma c4_validates : validateAccountOwnership c4Env "t1" "a1" c4Arn c4ExternalId = true := by
  simp [validateAccountOwnership, accountQuery, lookupAccounts, c4Env, c4Account,
    c4ExternalId]

/-- Witness for claim C4: a scan over regions r1 and r2 where r1 yields
three volumes and r2 throws ends completed with volumesFound three and
errors listing exactly r2 with its message. -/
theorem perRegionFailureIsolation_witness :
    (processScanRequest c4Env c4Request).2 = .ok ()
  ∧ (∀ r ∈ c4Request.regions,
       ScanEvent.regionScanCall r ∈ (processScanRequest c4Env c4Request).1)
  ∧ ∃ pre, (processScanRequest c4Env c4Request).1 =
      pre ++ [ScanEvent.statusUpdate "scan-2" "completed" none
        (some ⟨3, some ["r2: AccessDenied"]⟩)] := by
  have h := perRegionFailureIsolation c4Env c4Request ⟨"AK", "SK", "ST"⟩
    c4_validates (by decide) rfl
  refine ⟨h.1, h.2.1, ?_⟩
  obtain ⟨pre, hpre⟩ := h.2.2
  refine ⟨pre, ?_⟩
  rw [hpre]
  congr 1

lemma volumeKeyMatch_then (p : VolumeInsert) (t2 : Nat) (r : VolumeRow) :
    volumeKeyMatch r { p with last_scanned_at := t2 } = volumeKeyMatch r p := rfl

lemma volumeKeyMatch_newRow (p : VolumeInsert) (newId : String) (now : Nat) :
    volumeKeyMatch (newVolumeRow p newId now) p = true := by
  simp [volumeKeyMatch, newVolumeRow]

lemma volumeKeyMatch_update (p q : VolumeInsert) (now : Nat) (r : VolumeRow) :
    volumeKeyMatch (applyVolumeUpdate q now r) p = volumeKeyMatch r p := rfl

/-- Claim C5: a volume upsert that hits the unique-key conflict on tenant
and volume id overwrites only the mutable observed fields (state,
attachment fields, cost, tags, last-scanned and updated timestamps) and
leaves every identity field unchanged without inserting a row; applying
the same record twice with unchanged mutable fields and a fresh scan
time yields exactly one row for the key, with identity fields from the
first insert and a refreshed last-scanned timestamp. -/
theorem upsertVolumeFrameAndIdempotence (table : List VolumeRow) (p : VolumeInsert)
    (newId newId2 : String) (now now2 t2 : Nat) :
    (table.any (volumeKeyMatch · p) = true →
       ∃ f, upsertVolume table newId now p = table.map f
         ∧ (∀ r, volumeKeyMatch r p = false → f r = r)
         ∧ (∀ r, volumeKeyMatch r p = true →
              (f r).id = r.id ∧ (f r).tenant_id = r.tenant_id
            ∧ (f r).aws_account_id = r.aws_account_id ∧ (f r).volume_id = r.volume_id
            ∧ (f r).size_gb = r.size_gb ∧ (f r).volume_type = r.volume_type
            ∧ (f r).encrypted = r.encrypted ∧ (f r).kms_key_id = r.kms_key_id
            ∧ (f r).region = r.region ∧ (f r).availability_zone = r.availability_zone
            ∧ (f r).created_at = r.created_at ∧ (f r).iops = r.iops
            ∧ (f r).throughput = r.throughput
            ∧ (f r).state = p.state ∧ (f r).instance_id = p.instance_id
            ∧ (f r).device = p.device ∧ (f r).attached_at = p.attached_at
            ∧ (f r).cost_per_month = p.cost_per_month ∧ (f r).tags = p.tags
            ∧ (f r).last_scanned_at = p.last_scanned_at ∧ (f r).updated_at = now))
  ∧ (table.all (fun r => !volumeKeyMatch r p) = true →
       (upsertVolume (upsertVolume table newId now p) newId2 now2
           { p with last_scanned_at := t2 }).filter (volumeKeyMatch · p) =
         [{ newVolumeRow p newId now with last_scanned_at := t2, updated_at := now2 }]
     ∧ ((upsertVolume (upsertVolume table newId now p) newId2 now2
           { p with last_scanned_at := t2 }).filter (volumeKeyMatch · p)).length = 1) := by
  constructor
  · intro hany
    refine ⟨fun r => if volumeKeyMatch r p then applyVolumeUpdate p now r else r,
      ?_, ?_, ?_⟩
    · unfold upsertVolume
      rw [if_pos hany]
    · intro r hr
      dsimp only
      rw [if_neg (by simp [hr])]
    · intro r hr
      dsimp only
      rw [if_pos hr]
      refine ⟨rfl, rfl, rfl, rfl, rfl, rfl, rfl, rfl, rfl, rfl, rfl, rfl, rfl,
        rfl, rfl, rfl, rfl, rfl, rfl, rfl, rfl⟩
  · intro hall
    have hnone : table.any (volumeKeyMatch · p) = false := by
      rw [List.any_eq_false]
      intro r hr
      have := List.all_eq_true.mp hall r hr
      simp at this
      simp [this]
    have hu1 : upsertVolume table newId now p = table ++ [newVolumeRow p newId now] := by
      unfold upsertVolume
      rw [if_neg (by simp [hnone])]
    have hany2 : (table ++ [newVolumeRow p newId now]).any
        (volumeKeyMatch · { p with last_scanned_at := t2 }) = true := by
      rw [List.any_append]
      simp [volumeKeyMatch_then, volumeKeyMatch_newRow]
    have hu2 : upsertVolume (table ++ [newVolumeRow p newId now]) newId2 now2
        { p with last_scanned_at := t2 } =
        (table ++ [newVolumeRow p newId now]).map
          (fun r => if volumeKeyMatch r { p with last_scanned_at := t2 }
            then applyVolumeUpdate { p with last_scanned_at := t2 } now2 r else r) := by
      unfold upsertVolume
      rw [if_pos hany2]
    rw [hu1, hu2, List.map_append, List.filter_append]
    have htable : (table.map fun r =>
        if volumeKeyMatch r { p with last_scanned_at := t2 }
        then applyVolumeUpdate { p with last_scanned_at := t2 } now2 r else r) = table := by
      rw [List.map_congr_left (g := id), List.map_id]
      intro r hr
      have := List.all_eq_true.mp hall r hr
      simp at this
      simp [volumeKeyMatch_then, this]
    rw [htable]
    have hfiltert : table.filter (volumeKeyMatch · p) = [] := by
      rw [List.filter_eq_nil_iff]
      intro r hr
      have := List.all_eq_true.mp hall r hr
      simpa using this
    rw [hfiltert]
    have : ([newVolumeRow p newId now].map fun r =>
        if volumeKeyMatch r { p with last_scanned_at := t2 }
        then applyVolumeUpdate { p with last_scanned_at := t2 } now2 r else r) =
        [applyVolumeUpdate { p with last_scanned_at := t2 } now2
          (newVolumeRow p newId now)] := by
      simp [volumeKeyMatch_then, volumeKeyMatch_newRow]
    rw [this]
    have hkeep : volumeKeyMatch (applyVolumeUpdate { p with last_scanned_at := t2 }
        now2 (newVolumeRow p newId now)) p = true := by
      rw [volumeKeyMatch_update]
      exact volumeKeyMatch_newRow p newId now
    constructor
    · simp [List.filter, hkeep]
      rfl
    · simp [List.filter, hkeep]

/-- Witness for claim C5: a conflicting upsert updates in place without
adding a row, and inserting then re-upserting the same record with a
fresh scan time leaves exactly one row whose identity fields come from
the first insert and whose last-scanned time is refreshed. -/
theorem upsertVolumeFrameAndIdempotence_witness :
    (upsertVolume [c5Row] "row-2" 3000 c5Insert).length = 1
  ∧ (upsertVolume (upsertVolume [] "row-1" 2000 c5Insert) "row-2" 3000
        { c5Insert with last_scanned_at := 2500 }).filter (volumeKeyMatch · c5Insert) =
      [{ newVolumeRow c5Insert "row-1" 2000 with
          last_scanned_at := 2500, updated_at := 3000 }] := by
  constructor
  · obtain ⟨f, hmap, -, -⟩ :=
      (upsertVolumeFrameAndIdempotence [c5Row] c5Insert "row-2" "x" 3000 0 0).1
        (by decide)
    rw [hmap]
    rfl
  · exact ((upsertVolumeFrameAndIdempotence [] c5Insert "row-1" "row-2" 2000
      3000 2500).2 (by decide)).1

lemma finallySeq_release (r : Bool) (h : ConnEvent.release ∈ finallySeq r) :
    r = true := by
  cases r
  · simp [finallySeq] at h
  · rfl

lemma bodyEvents_no_release (stmts : List (String × Bool)) :
    ConnEvent.release ∉ bodyEvents stmts := by
  simp [bodyEvents]

lemma ctxAfter_append (c0 : String) (l1 l2 : List ConnEvent) :
    ctxAfter c0 (l1 ++ l2) = ctxAfter (ctxAfter c0 l1) l2 := by
  simp [ctxAfter, List.foldl_append]

lemma ctxAfter_reset_release (c0 : String) (pre : List ConnEvent) :
    ctxAfter c0 (pre ++ [ConnEvent.stmt SqlStmt.resetTenant true,
      ConnEvent.release]) = "" := by
  rw [ctxAfter_append]
  rfl

lemma reset_release_shape {A mid : List ConnEvent} {r : Bool}
    {trace : List ConnEvent}
    (ht : trace = A ++ mid ++ finallySeq r)
    (hA : ConnEvent.release ∉ A) (hmid : ConnEvent.release ∉ mid)
    (h : ConnEvent.release ∈ trace) :
    trace = (A ++ mid) ++ [ConnEvent.stmt SqlStmt.resetTenant true,
      ConnEvent.release] := by
  subst ht
  have hr : r = true := by
    rcases List.mem_append.mp h with h1 | h1
    · rcases List.mem_append.mp h1 with h2 | h2
      · exact absurd h2 hA
      · exact absurd h2 hmid
    · exact finallySeq_release r h1
  subst hr
  rfl

lemma queryWithTenant_trace (t q : String) (o : QueryCallOutcome) :
    (queryWithTenant t q o).1 =
      [ConnEvent.acquire, ConnEvent.stmt (SqlStmt.setTenant t) o.setOk] ++
      (if o.setOk then [ConnEvent.stmt (SqlStmt.exec q) o.execOk] else []) ++
      finallySeq o.resetOk := by
  rcases o with ⟨s, e, r⟩
  cases s <;> cases e <;> simp [queryWithTenant, finallySeq]

lemma query_reset_before_release (t q : String) (o : QueryCallOutcome)
    (h : ConnEvent.release ∈ (queryWithTenant t q o).1) :
    ∃ pre, (queryWithTenant t q o).1 =
      pre ++ [ConnEvent.stmt SqlStmt.resetTenant true, ConnEvent.release] := by
  refine ⟨_, reset_release_shape (queryWithTenant_trace t q o) (by simp) ?_ h⟩
  cases h2 : o.setOk <;> simp

lemma query_ctx_after_release (c0 t q : String) (o : QueryCallOutcome)
    (h : ConnEvent.release ∈ (queryWithTenant t q o).1) :
    ctxAfter c0 (queryWithTenant t q o).1 = "" := by
  obtain ⟨pre, hpre⟩ := query_reset_before_release t q o h
  rw [hpre]
  exact ctxAfter_reset_release c0 pre

lemma transactionWithTenant_shape (t : String) (o : TxCallOutcome) :
    ∃ mid, (transactionWithTenant t o).1 =
        [ConnEvent.acquire, ConnEvent.stmt SqlStmt.beginTx o.beginOk] ++ mid ++
          finallySeq o.resetOk
      ∧ ConnEvent.release ∉ mid
      ∧ (o.beginOk = true →
          ∃ mid2, mid = ConnEvent.stmt (SqlStmt.setTenant t) o.setOk :: mid2)
      ∧ (o.beginOk = false →
          mid = [ConnEvent.stmt SqlStmt.rollbackTx o.rollbackOk]) := by
  rcases o with ⟨b, s, stmts, bo, c, rb, r⟩
  cases b
  case false =>
    exact ⟨[ConnEvent.stmt SqlStmt.rollbackTx rb],
      by simp [transactionWithTenant, finallySeq], by simp, by simp, by simp⟩
  case true =>
    cases s
    case false =>
      exact ⟨[ConnEvent.stmt (SqlStmt.setTenant t) false,
          ConnEvent.stmt SqlStmt.rollbackTx rb],
        by simp [transactionWithTenant, finallySeq], by simp,
        fun _ => ⟨_, rfl⟩, by simp⟩
    case true =>
      cases bo
      case false =>
        exact ⟨[ConnEvent.stmt (SqlStmt.setTenant t) true] ++ bodyEvents stmts ++
            [ConnEvent.stmt SqlStmt.rollbackTx rb],
          by simp [transactionWithTenant, finallySeq], by simp [bodyEvents],
          fun _ => ⟨_, rfl⟩, by simp⟩
      case true =>
        cases c
        case false =>
          exact ⟨[ConnEvent.stmt (SqlStmt.setTenant t) true] ++ bodyEvents stmts ++
              [ConnEvent.stmt SqlStmt.commitTx false,
               ConnEvent.stmt SqlStmt.rollbackTx rb],
            by simp [transactionWithTenant, finallySeq], by simp [bodyEvents],
            fun _ => ⟨_, rfl⟩, by simp⟩
        case true =>
          exact ⟨[ConnEvent.stmt (SqlStmt.setTenant t) true] ++ bodyEvents stmts ++
              [ConnEvent.stmt SqlStmt.commitTx true],
            by simp [transactionWithTenant, finallySeq], by simp [bodyEvents],
            fun _ => ⟨_, rfl⟩, by simp⟩

lemma tx_reset_before_release (t : String) (o : TxCallOutcome)
    (h : ConnEvent.release ∈ (transactionWithTenant t o).1) :
    ∃ pre, (transactionWithTenant t o).1 =
      pre ++ [ConnEvent.stmt SqlStmt.resetTenant true, ConnEvent.release] := by
  obtain ⟨mid, hmid, hnr, -, -⟩ := transactionWithTenant_shape t o
  exact ⟨_, reset_release_shape hmid (by simp) hnr h⟩

lemma tx_ctx_after_release (c0 t : String) (o : TxCallOutcome)
    (h : ConnEvent.release ∈ (transactionWithTenant t o).1) :
    ctxAfter c0 (transactionWithTenant t o).1 = "" := by
  obtain ⟨pre, hpre⟩ := tx_reset_before_release t o h
  rw [hpre]
  exact ctxAfter_reset_release c0 pre

lemma tx_rollback_order (t : String) (o : TxCallOutcome)
    (hb : o.beginOk = true) (hs : o.setOk = true) (hbody : o.bodyOk = false) :
    (transactionWithTenant t o).1 =
      ([ConnEvent.acquire, ConnEvent.stmt SqlStmt.beginTx true,
        ConnEvent.stmt (SqlStmt.setTenant t) true] ++ bodyEvents o.bodyStmts) ++
      [ConnEvent.stmt SqlStmt.rollbackTx o.rollbackOk,
       ConnEvent.stmt SqlStmt.resetTenant o.resetOk] ++
      (if o.resetOk then [ConnEvent.release] else []) := by
  rcases o with ⟨b, s, stmts, bo, c, rb, r⟩
  simp only at hb hs hbody
  subst hb
  subst hs
  subst hbody
  simp [transactionWithTenant, finallySeq]

/-- Claim C2: on every exit path of queryWithTenant and
transactionWithTenant (normal return, a throwing statement, a throwing
transaction body) the session-local tenant context reset executes
immediately before the connection release; a body error rolls back before
the reset and the release; and the context a released connection carries
is always the empty value, so a later call on the same pooled connection
rebinds its own tenant and never observes the earlier binding. -/
theorem tenantContextResetAlways (t1 q1 t2 q2 : String)
    (o1 o2 : QueryCallOutcome) (t3 : String) (o3 : TxCallOutcome) (c0 : String) :
    (ConnEvent.release ∈ (queryWithTenant t1 q1 o1).1 →
       ∃ pre, (queryWithTenant t1 q1 o1).1 =
         pre ++ [ConnEvent.stmt SqlStmt.resetTenant true, ConnEvent.release])
  ∧ (ConnEvent.release ∈ (transactionWithTenant t3 o3).1 →
       ∃ pre, (transactionWithTenant t3 o3).1 =
         pre ++ [ConnEvent.stmt SqlStmt.resetTenant true, ConnEvent.release])
  ∧ (o3.beginOk = true → o3.setOk = true → o3.bodyOk = false →
       (transactionWithTenant t3 o3).1 =
         ([ConnEvent.acquire, ConnEvent.stmt SqlStmt.beginTx true,
           ConnEvent.stmt (SqlStmt.setTenant t3) true] ++ bodyEvents o3.bodyStmts) ++
         [ConnEvent.stmt SqlStmt.rollbackTx o3.rollbackOk,
          ConnEvent.stmt SqlStmt.resetTenant o3.resetOk] ++
         (if o3.resetOk then [ConnEvent.release] else []))
  ∧ (ConnEvent.release ∈ (queryWithTenant t1 q1 o1).1 →
       ctxAfter c0 (queryWithTenant t1 q1 o1).1 = "")
  ∧ (ConnEvent.release ∈ (transactionWithTenant t3 o3).1 →
       ctxAfter c0 (transactionWithTenant t3 o3).1 = "")
  ∧ (ConnEvent.release ∈ (queryWithTenant t1 q1 o1).1 → o2.setOk = true →
       ∃ suf, (queryWithTenant t2 q2 o2).1 =
           [ConnEvent.acquire, ConnEvent.stmt (SqlStmt.setTenant t2) true] ++ suf
         ∧ ctxAfter (ctxAfter c0 (queryWithTenant t1 q1 o1).1)
             [ConnEvent.acquire, ConnEvent.stmt (SqlStmt.setTenant t2) true] = t2) := by
  refine ⟨query_reset_before_release t1 q1 o1,
    tx_reset_before_release t3 o3,
    tx_rollback_order t3 o3,
    query_ctx_after_release c0 t1 q1 o1,
    tx_ctx_after_release c0 t3 o3,
    ?_⟩
  intro _ hset
  have ht := queryWithTenant_trace t2 q2 o2
  rw [hset] at ht
  refine ⟨[ConnEvent.stmt (SqlStmt.exec q2) o2.execOk] ++ finallySeq o2.resetOk, ?_, rfl⟩
  rw [ht]
  simp

/-- Witness for claim C2 at concrete outcomes: a fully successful query
call and a transaction whose body throws both reset the context right
before release, the rollback precedes the reset, the released context is
empty, and a second call rebinds its own tenant. -/
theorem tenantContextResetAlways_witness :
    (∃ pre, (queryWithTenant "tenantA" "SELECT 1" qAllOk).1 =
       pre ++ [ConnEvent.stmt SqlStmt.resetTenant true, ConnEvent.release])
  ∧ (∃ pre, (transactionWithTenant "tenantB" txBodyFail).1 =
       pre ++ [ConnEvent.stmt SqlStmt.resetTenant true, ConnEvent.release])
  ∧ (transactionWithTenant "tenantB" txBodyFail).1 =
      ([ConnEvent.acquire, ConnEvent.stmt SqlStmt.beginTx true,
        ConnEvent.stmt (SqlStmt.setTenant "tenantB") true] ++
        bodyEvents txBodyFail.bodyStmts) ++
      [ConnEvent.stmt SqlStmt.rollbackTx true,
       ConnEvent.stmt SqlStmt.resetTenant true] ++ [ConnEvent.release]
  ∧ ctxAfter "stale" (queryWithTenant "tenantA" "SELECT 1" qAllOk).1 = ""
  ∧ ctxAfter "stale" (transactionWithTenant "tenantB" txBodyFail).1 = ""
  ∧ (∃ suf, (queryWithTenant "tenantB" "SELECT 2" qAllOk).1 =
       [ConnEvent.acquire, ConnEvent.stmt (SqlStmt.setTenant "tenantB") true] ++ suf
     ∧ ctxAfter (ctxAfter "stale" (queryWithTenant "tenantA" "SELECT 1" qAllOk).1)
         [ConnEvent.acquire, ConnEvent.stmt (SqlStmt.setTenant "tenantB") true] =
       "tenantB") := by
  have h := tenantContextResetAlways "tenantA" "SELECT 1" "tenantB" "SELECT 2"
    qAllOk qAllOk "tenantB" txBodyFail "stale"
  exact ⟨h.1 (by decide), h.2.1 (by decide), h.2.2.1 rfl rfl rfl,
    h.2.2.2.1 (by decide), h.2.2.2.2.1 (by decide), h.2.2.2.2.2 (by decide) rfl⟩

/-- Counterexample for claim C8: in transactionWithTenant the first
statement executed after acquiring the connection is BEGIN, not the
tenant binding; at index one of the trace of a fully successful
transaction stands the BEGIN statement and not a set-tenant statement. -/
theorem bindingFirstStatement_cx :
    (transactionWithTenant "tenantA"
      ⟨true, true, [("INSERT INTO ebs_volumes", true)], true, true, true, true⟩).1[1]? =
      some (ConnEvent.stmt SqlStmt.beginTx true)
  ∧ ((transactionWithTenant "tenantA"
      ⟨true, true, [("INSERT INTO ebs_volumes", true)], true, true, true, true⟩).1[1]?.map
        isSetTenantEvent) = some false := by
  decide

/-- Claim C8, amended: in queryWithTenant the tenant binding is the first
statement after acquiring the connection; in transactionWithTenant the
first statement after acquiring is BEGIN and the binding is the next
statement, so no data-touching statement ever precedes the binding on the
connection; in both primitives the reset is the last statement before the
connection is released. -/
theorem bindingOrderAmended (t q t3 : String) (o : QueryCallOutcome)
    (o3 : TxCallOutcome) :
    (∃ suf, (queryWithTenant t q o).1 =
       [ConnEvent.acquire, ConnEvent.stmt (SqlStmt.setTenant t) o.setOk] ++ suf)
  ∧ (∃ suf, (transactionWithTenant t3 o3).1 =
       [ConnEvent.acquire, ConnEvent.stmt SqlStmt.beginTx o3.beginOk] ++ suf)
  ∧ (o3.beginOk = true → ∃ suf, (transactionWithTenant t3 o3).1 =
       [ConnEvent.acquire, ConnEvent.stmt SqlStmt.beginTx true,
        ConnEvent.stmt (SqlStmt.setTenant t3) o3.setOk] ++ suf)
  ∧ (o3.beginOk = false →
       ∀ e ∈ (transactionWithTenant t3 o3).1, isExecStmt e = false)
  ∧ (ConnEvent.release ∈ (queryWithTenant t q o).1 →
       ∃ pre, (queryWithTenant t q o).1 =
         pre ++ [ConnEvent.stmt SqlStmt.resetTenant true, ConnEvent.release])
  ∧ (ConnEvent.release ∈ (transactionWithTenant t3 o3).1 →
       ∃ pre, (transactionWithTenant t3 o3).1 =
         pre ++ [ConnEvent.stmt SqlStmt.resetTenant true, ConnEvent.release]) := by
  obtain ⟨mid, hmid, hnr, himp1, himp2⟩ := transactionWithTenant_shape t3 o3
  refine ⟨?_, ?_, ?_, ?_, query_reset_before_release t q o,
    tx_reset_before_release t3 o3⟩
  · exact ⟨(if o.setOk then [ConnEvent.stmt (SqlStmt.exec q) o.execOk] else []) ++
      finallySeq o.resetOk, by rw [queryWithTenant_trace t q o]; simp⟩
  · exact ⟨mid ++ finallySeq o3.resetOk, by rw [hmid]; simp⟩
  · intro hb
    obtain ⟨mid2, hmid2⟩ := himp1 hb
    rw [hmid, hmid2, hb]
    exact ⟨mid2 ++ finallySeq o3.resetOk, by simp⟩
  · intro hb e he
    rw [hmid, himp2 hb] at he
    cases hr : o3.resetOk <;> rw [hr] at he <;> simp [finallySeq] at he
    · rcases he with h | h | h | h <;> subst h <;> rfl
    · rcases he with h | h | h | h | h <;> subst h <;> rfl

/-- Witness for the amended claim C8 at concrete outcomes: the query binds
first after acquire; the transaction binds right after BEGIN; when BEGIN
throws no data statement runs at all; the reset is last before release. -/
theorem bindingOrderAmended_witness :
    (∃ suf, (queryWithTenant "tenantA" "SELECT 1" qAllOk).1 =
       [ConnEvent.acquire,
        ConnEvent.stmt (SqlStmt.setTenant "tenantA") true] ++ suf)
  ∧ (∃ suf, (transactionWithTenant "tenantB" txBodyFail).1 =
       [ConnEvent.acquire, ConnEvent.stmt SqlStmt.beginTx true,
        ConnEvent.stmt (SqlStmt.setTenant "tenantB") true] ++ suf)
  ∧ (∀ e ∈ (transactionWithTenant "tenantC" txBeginFail).1, isExecStmt e = false)
  ∧ (∃ pre, (queryWithTenant "tenantA" "SELECT 1" qAllOk).1 =
       pre ++ [ConnEvent.stmt SqlStmt.resetTenant true, ConnEvent.release]) :=
  ⟨(bindingOrderAmended "tenantA" "SELECT 1" "tenantB" qAllOk txBodyFail).1,
   (bindingOrderAmended "tenantA" "SELECT 1" "tenantB" qAllOk txBodyFail).2.2.1 rfl,
   (bindingOrderAmended "tenantA" "SELECT 1" "tenantC" qAllOk txBeginFail).2.2.2.1 rfl,
   (bindingOrderAmended "tenantA" "SELECT 1" "tenantB" qAllOk
     txBodyFail).2.2.2.2.1 (by decide)⟩
